import Mathlib

/-!
Verification development for the `tere` directory-browser repository.

The definitions in the first part of this file are shallow embeddings of
`src/settings.rs` and `src/ui/mod.rs`.  Components of the crate that are not
present under `src/` (notably `crate::app_state`) are modelled from the
specification; each such definition carries a doc comment starting with
`Modelled from the spec:`.
-/

namespace Tere

/-- Decidable equality for `Except`, used to evaluate concrete runs. -/
instance {e a : Type} [DecidableEq e] [DecidableEq a] : DecidableEq (Except e a)
  | Except.ok x, Except.ok y =>
      if h : x = y then isTrue (by rw [h]) else isFalse (fun he => by cases he; exact h rfl)
  | Except.ok _, Except.error _ => isFalse (fun he => by cases he)
  | Except.error _, Except.ok _ => isFalse (fun he => by cases he)
  | Except.error x, Except.error y =>
      if h : x = y then isTrue (by rw [h]) else isFalse (fun he => by cases he; exact h rfl)

/-- The crate's package name (`env!("CARGO_PKG_NAME")`). -/
def CARGO_PKG_NAME : String := "tere"

/-- Embeds `enum CaseSensitiveMode` from `src/settings.rs`. -/
inductive CaseSensitiveMode
  | IgnoreCase
  | CaseSensitive
  | SmartCase
deriving DecidableEq

/-- Embeds `impl Default for CaseSensitiveMode` (`SmartCase`). -/
instance : Inhabited CaseSensitiveMode := ⟨CaseSensitiveMode.SmartCase⟩

/-- Embeds `enum GapSearchMode` from `src/settings.rs` (the source spells
the last variant `GapSearchAnywere`). -/
inductive GapSearchMode
  | GapSearchFromStart
  | NoGapSearch
  | GapSearchAnywere
deriving DecidableEq

/-- Embeds `impl Default for GapSearchMode` (`GapSearchFromStart`). -/
instance : Inhabited GapSearchMode := ⟨GapSearchMode.GapSearchFromStart⟩

/-- Embeds `struct TereSettings` from `src/settings.rs`. `PathBuf` is
modelled as `String`. -/
structure TereSettings where
  folders_only : Bool
  filter_search : Bool
  case_sensitive : CaseSensitiveMode
  autocd_timeout : Option Nat
  history_file : Option String
  gap_search_mode : GapSearchMode
  mouse_enabled : Bool
  enter_is_cd_and_exit : Bool
  esc_is_cancel : Bool
deriving DecidableEq

/-- Embeds `#[derive(Default)]` on `TereSettings`: every `bool` is `false`,
every `Option` is `None`, and the two enums take their `Default` values. -/
def TereSettings.default : TereSettings :=
  { folders_only := false
    filter_search := false
    case_sensitive := CaseSensitiveMode.SmartCase
    autocd_timeout := none
    history_file := none
    gap_search_mode := GapSearchMode.GapSearchFromStart
    mouse_enabled := false
    enter_is_cd_and_exit := false
    esc_is_cancel := false }

/-- Model of the `clap::ArgMatches` the program receives: one `Bool` per
`is_present` flag, plus the effective value of each valued argument.
`autocd_timeout_last` and `mouse_last` are the *last* occurrence returned by
`values_of(..).unwrap().last().unwrap()`; clap guarantees a default value is
always present, so the unwraps never panic and the last value is a total
function of the command line. -/
structure ArgsModel where
  folders_only : Bool
  filter_search : Bool
  case_sensitive_flag : Bool
  ignore_case_flag : Bool
  smart_case_flag : Bool
  gap_search_flag : Bool
  gap_search_anywhere_flag : Bool
  no_gap_search_flag : Bool
  autocd_timeout_last : String
  history_file : Option String
  mouse_last : String
  enter_is_cd_and_exit : Bool
  esc_is_cancel : Bool
deriving DecidableEq

/-- Model of `clap::ErrorKind` restricted to the kind the source constructs. -/
inductive ClapErrorKind
  | invalidValue
deriving DecidableEq

/-- Model of `clap::Error` as built by `clap::Error::raw(kind, msg)`. -/
structure ClapError where
  kind : ClapErrorKind
  msg : String
deriving DecidableEq

/-- Ambient environment consulted by `parse_cli_args`: `dirs::cache_dir()`. -/
structure SysEnv where
  cache_dir : Option String
deriving DecidableEq

/-- Rust's `u64::from_str`: an optional leading `+`, then one or more ASCII
digits, and the value must fit in 64 bits; anything else is an error. -/
def u64FromStr (s : String) : Option Nat :=
  let cs := s.toList
  let digits := match cs with
    | '+' :: rest => rest
    | _ => cs
  if digits.isEmpty then none
  else if digits.all (fun c => c.isDigit) then
    let v := digits.foldl (fun a c => a * 10 + (c.toNat - '0'.toNat)) 0
    if v < 2 ^ 64 then some v else none
  else none

/-- The `autocd-timeout` step of `parse_cli_args`: `"off"` disables the
timeout, a string `u64::from_str` accepts gives the value in milliseconds,
anything else is an `InvalidValue` error built by `clap::Error::raw`. -/
def parseAutocdTimeout (x : String) : Except ClapError (Option Nat) :=
  if x = "off" then Except.ok none
  else
    match u64FromStr x with
    | some v => Except.ok (some v)
    | none =>
        Except.error
          { kind := ClapErrorKind.invalidValue
            msg := "Invalid value for 'autocd-timeout': '" ++ x ++ "'\n" }

/-- Embeds `TereSettings::parse_cli_args` from `src/settings.rs`. The
source starts from `Default::default()` and overwrites fields one by one;
every assignment touches a distinct field, so the result is written as a
single record whose fields each carry the source's logic verbatim (an
`is_present` flag that only ever sets `true` over the `false` default
collapses to the flag itself). The `autocd-timeout` parse is the sole
fallible step and fails the whole parse via `?`. -/
def parse_cli_args (env : SysEnv) (args : ArgsModel) :
    Except ClapError TereSettings :=
  match parseAutocdTimeout args.autocd_timeout_last with
  | Except.error e => Except.error e
  | Except.ok timeout =>
      Except.ok
        { folders_only := args.folders_only
          filter_search := args.filter_search
          case_sensitive :=
            if args.case_sensitive_flag then CaseSensitiveMode.CaseSensitive
            else if args.ignore_case_flag then CaseSensitiveMode.IgnoreCase
            else if args.smart_case_flag then CaseSensitiveMode.SmartCase
            else TereSettings.default.case_sensitive
          autocd_timeout := timeout
          history_file :=
            match args.history_file with
            | some hist_file => if hist_file = "" then none else some hist_file
            | none =>
                env.cache_dir.map
                  (fun path => path ++ "/" ++ CARGO_PKG_NAME ++ "/history.json")
          gap_search_mode :=
            if args.gap_search_flag then GapSearchMode.GapSearchFromStart
            else if args.gap_search_anywhere_flag then GapSearchMode.GapSearchAnywere
            else if args.no_gap_search_flag then GapSearchMode.NoGapSearch
            else TereSettings.default.gap_search_mode
          mouse_enabled := args.mouse_last = "on"
          enter_is_cd_and_exit := args.enter_is_cd_and_exit
          esc_is_cancel := args.esc_is_cancel }

/-- Modelled from the spec: per-character comparison of `SearchMatcher`
(§4.2), "case rule applied per character comparison": exact comparison when
case-sensitive, fold both sides otherwise. -/
def charEqCase (cs : Bool) (a b : Char) : Bool :=
  if cs then a = b else a.toLower = b.toLower

/-- Modelled from the spec: ordered-subsequence matching of `SearchMatcher`
(§4.2): the query's characters occur in order, gaps allowed anywhere. -/
def isSubseqBy (eq : Char → Char → Bool) : List Char → List Char → Bool
  | [], _ => true
  | _ :: _, [] => false
  | a :: qs, b :: ns =>
      if eq a b then isSubseqBy eq qs ns else isSubseqBy eq (a :: qs) ns

/-- Modelled from the spec: contiguous match starting at the head of the
name (used to build up the contiguous-substring rule of `NoGapSearch`). -/
def matchesHereBy (eq : Char → Char → Bool) : List Char → List Char → Bool
  | [], _ => true
  | _ :: _, [] => false
  | a :: qs, b :: ns => eq a b && matchesHereBy eq qs ns

/-- Modelled from the spec: the `NoGapSearch` rule of §4.2 — "query must
match as a contiguous substring" (at some position of the name). -/
def isContiguousBy (eq : Char → Char → Bool) (q : List Char) :
    List Char → Bool
  | [] => q.isEmpty
  | b :: ns => matchesHereBy eq q (b :: ns) || isContiguousBy eq q ns

/-- Modelled from the spec: the `GapSearchFromStart` rule of §4.2 — ordered
subsequence whose first query character aligns with the first character of
the name; gaps allowed only after the first position. -/
def matchFromStartBy (eq : Char → Char → Bool) : List Char → List Char → Bool
  | [], _ => true
  | _ :: _, [] => false
  | a :: qs, b :: ns => eq a b && isSubseqBy eq qs ns

/-- Modelled from the spec: whether one entry name matches the query under
the given gap mode, with `cs` the resolved case-sensitivity. -/
def nameMatches (mode : GapSearchMode) (cs : Bool) (q name : String) : Bool :=
  match mode with
  | GapSearchMode.NoGapSearch => isContiguousBy (charEqCase cs) q.toList name.toList
  | GapSearchMode.GapSearchFromStart => matchFromStartBy (charEqCase cs) q.toList name.toList
  | GapSearchMode.GapSearchAnywere => isSubseqBy (charEqCase cs) q.toList name.toList

/-- Modelled from the spec: `SearchMatcher.recompute` (§4.2) restricted to
the matching indices — the listing indices whose entry name matches, in
listing order. -/
def matchingIndices (mode : GapSearchMode) (cs : Bool)
    (listing : List String) (q : String) : List Nat :=
  (List.range listing.length).filter
    (fun i => nameMatches mode cs q (listing.getD i ""))

/-- Modelled from the spec: the SmartCase resolution of §4.2 — the search is
case-sensitive iff the mode is `CaseSensitive`, or the mode is `SmartCase`
and the query contains an uppercase character (re-evaluated on the current
query). -/
def isCaseSensitiveNow (mode : CaseSensitiveMode) (q : String) : Bool :=
  match mode with
  | CaseSensitiveMode.IgnoreCase => false
  | CaseSensitiveMode.CaseSensitive => true
  | CaseSensitiveMode.SmartCase => q.toList.any (fun c => c.isUpper)

/-- Modelled from the spec: the recoverable navigation errors of §7(a) —
target not a directory, permission denied, path no longer exists. The type
`crate::app_state` raises is not under `src/`. -/
inductive NavError
  | notADirectory
  | permissionDenied
  | notFound
deriving DecidableEq

/-- Modelled from the spec: what the filesystem holds at one path — a
readable directory with its (already filtered and sorted) entry names, a
non-directory, or a directory the user may not read. -/
inductive FsNode
  | dir (entries : List String)
  | file
  | denied
deriving DecidableEq

/-- A finite model of the filesystem: absolute path to node; paths not
listed do not exist. -/
def Fs := List (String × FsNode)

/-- Look a path up in the filesystem model. -/
def fsLookup (fs : Fs) (p : String) : Option FsNode :=
  (fs.find? (fun e => e.1 = p)).map (fun e => e.2)

/-- Split a character list at every `'/'` (the component structure of a
path). -/
def splitOnSlash : List Char → List (List Char)
  | [] => [[]]
  | c :: cs =>
      match splitOnSlash cs with
      | [] => [[c]]
      | h :: t => if c = '/' then [] :: h :: t else (c :: h) :: t

/-- Parent of an absolute path (`".."` resolution): drop the last
component; the parent of the root is the root. -/
def parentPath (p : String) : String :=
  let parts := (splitOnSlash p.toList).filter (fun s => ¬ s.isEmpty)
  match parts.dropLast with
  | [] => "/"
  | ps => String.mk ('/' :: List.intercalate ['/'] ps)

/-- Whether a path string is absolute (leading `'/'`). -/
def isAbsolutePath (p : String) : Bool :=
  match p.toList with
  | '/' :: _ => true
  | _ => false

/-- Join a directory path and an entry name. -/
def joinPath (p name : String) : String :=
  if p = "/" then "/" ++ name else p ++ "/" ++ name

/-- Modelled from the spec: the constant `crate::app_state::NO_MATCHES_MSG`
(its exact text is not under `src/`; only its identity matters here). -/
def NO_MATCHES_MSG : String := "No matches"

/-- Modelled from the spec: `crate::app_state::TereAppState` (§3), the
fields the UI layer under `src/` touches. The cursor is kept directly as a
visible item index (the spec's `scroll_pos + cursor_pos`); the viewport
split is display-only. -/
structure TereAppState where
  current_path : String
  listing : List String
  search_string : String
  search_matches : List Nat
  cursor_pos : Nat
  header_msg : String
  info_msg : String
  settings : TereSettings
  history : List (String × Nat)
deriving DecidableEq

/-- `is_searching`: the query is non-empty (§4.4 state machine). -/
def is_searching (st : TereAppState) : Bool :=
  st.search_string ≠ ""

/-- Modelled from the spec: recompute `matches` from the query, listing and
mode flags (§3 invariant); an empty query means not searching and no
matches (`clear_search` "recomputes matches (to none)"). -/
def recomputeMatches (st : TereAppState) (q : String) : List Nat :=
  if q = "" then []
  else
    matchingIndices st.settings.gap_search_mode
      (isCaseSensitiveNow st.settings.case_sensitive q) st.listing q

/-- Modelled from the spec: `advance_search` (§4.4) — append to the query,
recompute matches, and keep the cursor on a match (on the first match when
it was not on one; the §8 auto-commit scenario requires the cursor to sit
on the sole match). -/
def advanceSearch (s : String) (st : TereAppState) : TereAppState :=
  let q := st.search_string ++ s
  let ms := recomputeMatches st q
  let cursor :=
    match ms with
    | [] => st.cursor_pos
    | m :: _ => if ms.contains st.cursor_pos then st.cursor_pos else m
  { st with search_string := q, search_matches := ms, cursor_pos := cursor }

/-- Modelled from the spec: `erase_search_char` (§4.4) — remove the last
query character and recompute. -/
def eraseSearchChar (st : TereAppState) : TereAppState :=
  let q := String.mk st.search_string.toList.dropLast
  let ms := recomputeMatches st q
  let cursor :=
    match ms with
    | [] => st.cursor_pos
    | m :: _ => if ms.contains st.cursor_pos then st.cursor_pos else m
  { st with search_string := q, search_matches := ms, cursor_pos := cursor }

/-- Modelled from the spec: `clear_search` (§4.4) — force the query to
empty (back to Browsing) and recompute matches, to none. -/
def clearSearch (st : TereAppState) : TereAppState :=
  { st with search_string := "", search_matches := [] }

/-- Replace any previous entry for `k` (at most one entry per path, §3). -/
def historyUpdate (h : List (String × Nat)) (k : String) (v : Nat) :
    List (String × Nat) :=
  (h.filter (fun e => e.1 ≠ k)) ++ [(k, v)]

/-- Look a path up in the history mapping. -/
def historyLookup (h : List (String × Nat)) (k : String) : Option Nat :=
  (h.find? (fun e => e.1 = k)).map (fun e => e.2)

/-- Modelled from the spec: resolution of a `change_dir` token (§4.4):
`""` is the entry under the cursor, `".."` the parent, `"."` the current
directory, anything else a literal absolute or relative path. -/
def resolveTarget (st : TereAppState) (target : String) : Option String :=
  if target = "" then
    (st.listing.get? st.cursor_pos).map (fun name => joinPath st.current_path name)
  else if target = ".." then some (parentPath st.current_path)
  else if target = "." then some st.current_path
  else if isAbsolutePath target then some target
  else some (joinPath st.current_path target)

/-- Modelled from the spec: `TereAppState::change_dir` (§4.4). On success:
persist the left directory's cursor into history, list the new path, reset
the search, seed the cursor from history (0 when absent or out of range)
and update the header. On failure: return the recoverable error. -/
def appChangeDir (fs : Fs) (st : TereAppState) (target : String) :
    Except NavError TereAppState :=
  match resolveTarget st target with
  | none => Except.error NavError.notFound
  | some path =>
    match fsLookup fs path with
    | some (FsNode.dir entries) =>
        let history1 := historyUpdate st.history st.current_path st.cursor_pos
        let remembered := (historyLookup history1 path).getD 0
        let cursor := if remembered < entries.length then remembered else 0
        Except.ok
          { st with
              current_path := path
              listing := entries
              search_string := ""
              search_matches := []
              cursor_pos := cursor
              history := history1
              header_msg := path }
    | some FsNode.file => Except.error NavError.notADirectory
    | some FsNode.denied => Except.error NavError.permissionDenied
    | none => Except.error NavError.notFound

/-- Display text of a recoverable navigation error (the `{}` formatting of
the underlying io error). -/
def navErrorMsg : NavError → String
  | NavError.notADirectory => "Not a directory"
  | NavError.permissionDenied => "Permission denied"
  | NavError.notFound => "No such file or directory"

/-- Modelled from the spec: `move_cursor(delta, wrap)` (§4.3) — wrap modulo
the visible count or clamp to `[0, count-1]`; total on an empty listing. -/
def moveCursor (amount : Int) (wrap : Bool) (st : TereAppState) : TereAppState :=
  let n := st.listing.length
  if n = 0 then { st with cursor_pos := 0 }
  else
    let target : Int := (st.cursor_pos : Int) + amount
    let newPos : Nat :=
      if wrap then (target % (n : Int)).toNat
      else if target < 0 then 0
      else min target.toNat (n - 1)
    { st with cursor_pos := newPos }

/-- Modelled from the spec: `move_to(index)` (§4.3) — absolute jump clamped
to the valid range. -/
def moveCursorTo (idx : Nat) (st : TereAppState) : TereAppState :=
  let n := st.listing.length
  if n = 0 then { st with cursor_pos := 0 }
  else { st with cursor_pos := min idx (n - 1) }

/-- Modelled from the spec: `move_to_adjacent_match(direction)` (§4.3) —
jump to the next/previous match, wrapping across the match set; no-op with
zero matches. -/
def moveCursorToAdjacentMatch (dir : Int) (st : TereAppState) : TereAppState :=
  match st.search_matches with
  | [] => st
  | ms =>
      let len := ms.length
      let pos := (ms.findIdx? (fun m => m = st.cursor_pos)).getD 0
      let next := if dir ≥ 0 then (pos + 1) % len else (pos + len - 1) % len
      { st with cursor_pos := ms.getD next st.cursor_pos }

/-- Modelled from the spec: `move_cursor_to_filename` — move the cursor to
the entry with the given name, when present. -/
def moveCursorToFilename (name : String) (st : TereAppState) : TereAppState :=
  match st.listing.findIdx? (fun nm => nm = name) with
  | some i => { st with cursor_pos := i }
  | none => st

/-- Key modifiers as the source compares them: exactly `ALT`, exactly
`CONTROL`, exactly `CONTROL | ALT`, none, or some other combination. -/
inductive TMods
  | noMods
  | alt
  | control
  | ctrlAlt
  | otherMods
deriving DecidableEq

/-- The `crossterm::event::KeyCode` constructors the source matches on. -/
inductive TKeyCode
  | right
  | enter
  | left
  | up
  | down
  | pageUp
  | pageDown
  | homeKey
  | endKey
  | esc
  | backspace
  | char (c : Char)
  | otherKey
deriving DecidableEq

/-- A key event: code plus modifiers. -/
structure TKeyEvent where
  code : TKeyCode
  mods : TMods
deriving DecidableEq

/-- The mouse event kinds the source matches on. -/
inductive TMouseKind
  | leftDown
  | leftDrag
  | leftUp
  | rightUp
  | scrollUp
  | scrollDown
  | otherMouse
deriving DecidableEq

/-- A terminal input event (`crossterm::event::Event`). -/
inductive TEvent
  | key (k : TKeyEvent)
  | resize (w h : Nat)
  | mouse (row : Nat) (kind : TMouseKind)
deriving DecidableEq

/-- Observable actions of the controller recorded as a trace: the exclusive
highlight and blocking sleep of the auto-commit path, each input event
discarded by the post-sleep drain, and each call to `TereTui::change_dir`. -/
inductive Effect
  | highlightExclusive (row : Nat)
  | sleepMs (t : Nat)
  | discardedEvent
  | changeDirCall (path : String)
deriving DecidableEq

/-- State of the `TereTui` layer: the app state, the queue of pending input
events (what `crossterm::event::poll`/`read` would deliver), the effect
trace, and the main-window height. -/
structure UiState where
  app : TereAppState
  event_queue : List TEvent
  trace : List Effect
  win_height : Nat
deriving DecidableEq

/-- Embeds `enum TereError` of `crate::error` restricted to the variants
the event loop produces (`ExitWithoutCd`) plus a generic io error variant. -/
inductive TereError
  | exitWithoutCd (msg : String)
  | ioError (msg : String)
deriving DecidableEq

/-- Models `Result<(), TereError>`, the type `main_event_loop` returns. -/
inductive LoopOutcome
  | ok
  | err (e : TereError)
deriving DecidableEq

/-- One step of the main event loop: either the loop continues with a new
state, or it terminates with a `Result<(), TereError>`. -/
inductive StepResult
  | cont (st : UiState)
  | exit (st : UiState) (r : LoopOutcome)
deriving DecidableEq

/-- The message built for `TereError::ExitWithoutCd` in `main_event_loop`. -/
def exitWithoutCdMsg : String :=
  CARGO_PKG_NAME ++ ": Exited without changing folder"

/-- Append one effect to the trace. -/
def emit (st : UiState) (e : Effect) : UiState :=
  { st with trace := st.trace ++ [e] }

/-- Embeds `TereTui::info_message` (and `error_message` via the `"error: "`
prefixing): store the message in the app state. -/
def setInfo (st : UiState) (s : String) : UiState :=
  { st with app := { st.app with info_msg := s } }

/-- Embeds `TereTui::change_dir` from `src/ui/mod.rs`: delegate to the app
state; on `Err` surface the error as a status message (debug vs display
formatting only changes the text); on `Ok` update the header and clear the
status message; in both cases redraw and return control to the loop. -/
def tereChangeDir (fs : Fs) (st : UiState) (path : String) : UiState :=
  let st := emit st (Effect.changeDirCall path)
  match appChangeDir fs st.app path with
  | Except.error e => setInfo st ("error: " ++ navErrorMsg e)
  | Except.ok app1 =>
      { st with app := { app1 with header_msg := app1.current_path, info_msg := "" } }

/-- Embeds the drain loop of `on_search_char`: `while poll(0) { read_event() }`
— every queued input event is read and discarded. -/
def drainEvents (st : UiState) : UiState :=
  { st with
      event_queue := []
      trace := st.trace ++ st.event_queue.map (fun _ => Effect.discardedEvent) }

/-- Embeds `TereTui::on_search_char` from `src/ui/mod.rs`: advance the
search by one character; with exactly one match and a configured
`autocd_timeout` highlight the row, sleep, drain pending input and call
`change_dir("")`; with a disabled timeout do nothing further; with zero
matches show `NO_MATCHES_MSG`, otherwise clear the message. -/
def onSearchChar (fs : Fs) (st : UiState) (c : Char) : UiState :=
  let app1 := advanceSearch c.toString st.app
  let st1 := { st with app := app1 }
  let n := app1.search_matches.length
  if n = 1 then
    match app1.settings.autocd_timeout with
    | some t =>
        let stA := emit (emit st1 (Effect.highlightExclusive app1.cursor_pos)) (Effect.sleepMs t)
        tereChangeDir fs (drainEvents stA) ""
    | none => st1
  else if n = 0 then setInfo st1 NO_MATCHES_MSG
  else setInfo st1 ""

/-- Embeds `TereTui::erase_search_char` from `src/ui/mod.rs`. -/
def eraseSearchCharUi (st : UiState) : UiState :=
  let st1 := { st with app := eraseSearchChar st.app }
  if st1.app.search_matches.length = 0 then setInfo st1 NO_MATCHES_MSG
  else setInfo st1 ""

/-- Embeds `TereTui::move_cursor` (drawing elided). -/
def uiMoveCursor (amount : Int) (wrap : Bool) (st : UiState) : UiState :=
  { st with app := moveCursor amount wrap st.app }

/-- Embeds `TereTui::on_arrow_key`. -/
def onArrowKey (up : Bool) (st : UiState) : UiState :=
  let dir : Int := if up then -1 else 1
  if is_searching st.app then
    { st with app := moveCursorToAdjacentMatch dir st.app }
  else uiMoveCursor dir true st

/-- Embeds `TereTui::on_page_up_down`. -/
def onPageUpDown (up : Bool) (st : UiState) : UiState :=
  if ¬ is_searching st.app then
    let delta : Int := ((st.win_height - 1 : Nat) : Int) * (if up then -1 else 1)
    uiMoveCursor delta false st
  else st

/-- Embeds `TereTui::on_home_end`. -/
def onHomeEnd (home : Bool) (st : UiState) : UiState :=
  if ¬ is_searching st.app then
    let target := if home then 0 else st.app.listing.length
    { st with app := moveCursorTo target st.app }
  else st

/-- The user's home directory (`dirs::home_dir()`), part of the ambient
environment of the UI layer. -/
structure UiEnv where
  home_dir : Option String
deriving DecidableEq

/-- Embeds `TereTui::on_go_to_home`. -/
def onGoToHome (fs : Fs) (env : UiEnv) (st : UiState) : UiState :=
  match env.home_dir with
  | some p => tereChangeDir fs st p
  | none => st

/-- Embeds `TereTui::on_go_to_root`. -/
def onGoToRoot (fs : Fs) (st : UiState) : UiState :=
  tereChangeDir fs st "/"

/-- Embeds `TereTui::cycle_case_sensitive_mode`. -/
def cycleCaseSensitiveMode (st : UiState) : UiState :=
  let next :=
    match st.app.settings.case_sensitive with
    | CaseSensitiveMode.IgnoreCase => CaseSensitiveMode.CaseSensitive
    | CaseSensitiveMode.CaseSensitive => CaseSensitiveMode.SmartCase
    | CaseSensitiveMode.SmartCase => CaseSensitiveMode.IgnoreCase
  let app1 := { st.app with settings := { st.app.settings with case_sensitive := next } }
  { st with app := advanceSearch "" app1 }

/-- Embeds `TereTui::cycle_gap_search_mode`. -/
def cycleGapSearchMode (st : UiState) : UiState :=
  let next :=
    match st.app.settings.gap_search_mode with
    | GapSearchMode.GapSearchFromStart => GapSearchMode.NoGapSearch
    | GapSearchMode.NoGapSearch => GapSearchMode.GapSearchAnywere
    | GapSearchMode.GapSearchAnywere => GapSearchMode.GapSearchFromStart
  let app1 := { st.app with settings := { st.app.settings with gap_search_mode := next } }
  { st with app := advanceSearch "" app1 }

/-- Embeds `TereTui::handle_mouse_event` (scroll offset elided: the row
maps directly to a listing index). -/
def handleMouseEvent (fs : Fs) (st : UiState) (row : Nat) (kind : TMouseKind) : UiState :=
  if row = 0 then st
  else
    match st.app.listing.get? (row - 1) with
    | some fname =>
        if kind = TMouseKind.leftUp then tereChangeDir fs st fname
        else { st with app := moveCursorToFilename fname st.app }
    | none => st

/-- Embeds the inner loop of `TereTui::help_view_loop`: events are consumed
until Esc, `q`, `?` (any modifiers) or Ctrl+C closes the help view; every
other event only scrolls or redraws. -/
def helpLoopAux : List TEvent → List TEvent
  | [] => []
  | e :: rest =>
      match e with
      | TEvent.key ⟨TKeyCode.esc, _⟩ => rest
      | TEvent.key ⟨TKeyCode.char 'q', _⟩ => rest
      | TEvent.key ⟨TKeyCode.char '?', _⟩ => rest
      | TEvent.key ⟨TKeyCode.char 'c', TMods.control⟩ => rest
      | _ => helpLoopAux rest

/-- Embeds `TereTui::help_view_loop` at the state level. -/
def helpViewLoop (st : UiState) : UiState :=
  { st with event_queue := helpLoopAux st.event_queue }

/-- Modelled from the spec: `on_exit` (§4.4) persists the cursor position
and flushes the history store; persistence succeeds in this model, so the
`break` paths of the loop return `Ok(())`. -/
def onExitOutcome (st : UiState) : LoopOutcome :=
  let _ := st
  LoopOutcome.ok

/-- The distinct actions of the `KeyCode::Char(c)` arms of the
`Event::Key` match in `TereTui::main_event_loop` (arms with identical
bodies share one constructor). -/
inductive CharCmd
  | cdCursor
  | cdParent
  | goHomeCmd
  | goRootCmd
  | helpCmd
  | arrowUpCmd
  | arrowDownCmd
  | refreshCmd
  | quitCmd
  | ctrlCCmd
  | pageUpCmd
  | pageDownCmd
  | homeJump
  | endJump
  | cycleCaseCmd
  | cycleGapCmd
  | searchCmd (c : Char)
deriving DecidableEq

/-- Embeds the dispatch of the `KeyCode::Char(c)` arms, in source order, as
a sequential test chain — exactly the semantics of Rust's ordered match
arms with guards over one `char` scrutinee; a failed guard (`' '` or `'-'`
while searching) falls through to the final `KeyCode::Char(c)` catch-all,
as in the source. -/
def charCmdOf (searching : Bool) (c : Char) (m : TMods) : CharCmd :=
  if c = ' ' then
    if ¬ searching then CharCmd.cdCursor else CharCmd.searchCmd ' '
  else if c = 'h' ∧ m = TMods.ctrlAlt then CharCmd.goHomeCmd
  else if c = '~' then CharCmd.goHomeCmd
  else if c = '/' then CharCmd.goRootCmd
  else if c = 'r' ∧ m = TMods.alt then CharCmd.goRootCmd
  else if c = '?' then CharCmd.helpCmd
  else if c = 'h' ∧ m = TMods.alt then CharCmd.cdParent
  else if c = 'j' ∧ m = TMods.alt then CharCmd.arrowDownCmd
  else if c = 'k' ∧ m = TMods.alt then CharCmd.arrowUpCmd
  else if c = 'l' ∧ m = TMods.alt then CharCmd.cdCursor
  else if c = 'r' ∧ m = TMods.control then CharCmd.refreshCmd
  else if c = 'q' ∧ m = TMods.alt then CharCmd.quitCmd
  else if c = 'c' ∧ m = TMods.control then CharCmd.ctrlCCmd
  else if c = 'u' ∧ (m = TMods.alt ∨ m = TMods.control) then CharCmd.pageUpCmd
  else if c = 'd' ∧ (m = TMods.alt ∨ m = TMods.control) then CharCmd.pageDownCmd
  else if c = 'g' ∧ m = TMods.alt then CharCmd.homeJump
  else if c = 'G' ∧ (m = TMods.alt ∨ m = TMods.ctrlAlt) then CharCmd.endJump
  else if c = 'c' ∧ m = TMods.alt then CharCmd.cycleCaseCmd
  else if c = 'f' ∧ m = TMods.control then CharCmd.cycleGapCmd
  else if c = '-' ∧ ¬ searching then CharCmd.cdParent
  else CharCmd.searchCmd c

/-- The bodies of the `KeyCode::Char(c)` arms. -/
def runCharCmd (fs : Fs) (env : UiEnv) (st : UiState) : CharCmd → StepResult
  | CharCmd.cdCursor => StepResult.cont (tereChangeDir fs st "")
  | CharCmd.cdParent => StepResult.cont (tereChangeDir fs st "..")
  | CharCmd.goHomeCmd => StepResult.cont (onGoToHome fs env st)
  | CharCmd.goRootCmd => StepResult.cont (onGoToRoot fs st)
  | CharCmd.helpCmd => StepResult.cont (helpViewLoop st)
  | CharCmd.arrowUpCmd => StepResult.cont (onArrowKey true st)
  | CharCmd.arrowDownCmd => StepResult.cont (onArrowKey false st)
  | CharCmd.refreshCmd =>
      StepResult.cont (setInfo (tereChangeDir fs st ".") "Refreshed directory listing")
  | CharCmd.quitCmd => StepResult.exit st (onExitOutcome st)
  | CharCmd.ctrlCCmd =>
      StepResult.exit st (LoopOutcome.err (TereError.exitWithoutCd exitWithoutCdMsg))
  | CharCmd.pageUpCmd => StepResult.cont (onPageUpDown true st)
  | CharCmd.pageDownCmd => StepResult.cont (onPageUpDown false st)
  | CharCmd.homeJump => StepResult.cont (onHomeEnd true st)
  | CharCmd.endJump => StepResult.cont (onHomeEnd false st)
  | CharCmd.cycleCaseCmd => StepResult.cont (cycleCaseSensitiveMode st)
  | CharCmd.cycleGapCmd => StepResult.cont (cycleGapSearchMode st)
  | CharCmd.searchCmd c => StepResult.cont (onSearchChar fs st c)

/-- The `KeyCode::Char(c)` arms: classify, then run the arm body. -/
def handleCharKey (fs : Fs) (env : UiEnv) (st : UiState) (c : Char) (m : TMods) :
    StepResult :=
  runCharCmd fs env st (charCmdOf (is_searching st.app) c m)

/-- Embeds the `Event::Key` match of `TereTui::main_event_loop` from
`src/ui/mod.rs`. The non-`Char` arms match pairwise-distinct `KeyCode`
constructors, so their relative source order is immaterial and they are
grouped by constructor here; the ordered `Char` arms live in
`handleCharKey`. -/
def handleKey (fs : Fs) (env : UiEnv) (st : UiState) (k : TKeyEvent) : StepResult :=
  match k.code with
  | TKeyCode.right => StepResult.cont (tereChangeDir fs st "")
  | TKeyCode.enter =>
      if st.app.settings.enter_is_cd_and_exit then
        StepResult.exit (tereChangeDir fs st "") (onExitOutcome st)
      else if st.app.settings.esc_is_cancel then
        StepResult.exit st (onExitOutcome st)
      else
        StepResult.cont (tereChangeDir fs st "")
  | TKeyCode.left => StepResult.cont (tereChangeDir fs st "..")
  | TKeyCode.up =>
      if k.mods = TMods.alt then StepResult.cont (tereChangeDir fs st "..")
      else StepResult.cont (onArrowKey true st)
  | TKeyCode.down =>
      if k.mods = TMods.alt then StepResult.cont (tereChangeDir fs st "")
      else StepResult.cont (onArrowKey false st)
  | TKeyCode.pageUp => StepResult.cont (onPageUpDown true st)
  | TKeyCode.pageDown => StepResult.cont (onPageUpDown false st)
  | TKeyCode.homeKey =>
      if k.mods = TMods.control then StepResult.cont (onGoToHome fs env st)
      else StepResult.cont (onHomeEnd true st)
  | TKeyCode.endKey => StepResult.cont (onHomeEnd false st)
  | TKeyCode.esc =>
      if is_searching st.app then
        StepResult.cont (setInfo { st with app := clearSearch st.app } "")
      else if st.app.settings.esc_is_cancel then
        StepResult.exit st (LoopOutcome.err (TereError.exitWithoutCd exitWithoutCdMsg))
      else
        StepResult.exit st (onExitOutcome st)
  | TKeyCode.char c => handleCharKey fs env st c k.mods
  | TKeyCode.backspace =>
      if is_searching st.app then StepResult.cont (eraseSearchCharUi st)
      else StepResult.cont (tereChangeDir fs st "..")
  | TKeyCode.otherKey => StepResult.cont (setInfo st "unhandled key event")

/-- Embeds one iteration of `TereTui::main_event_loop`: dispatch on the
event kind (key, resize, mouse). -/
def handleEvent (fs : Fs) (env : UiEnv) (st : UiState) (e : TEvent) : StepResult :=
  match e with
  | TEvent.key k => handleKey fs env st k
  | TEvent.resize _ h => StepResult.cont { st with win_height := h }
  | TEvent.mouse row kind =>
      match kind with
      | TMouseKind.leftDown => StepResult.cont (handleMouseEvent fs st row kind)
      | TMouseKind.leftDrag => StepResult.cont (handleMouseEvent fs st row kind)
      | TMouseKind.leftUp => StepResult.cont (handleMouseEvent fs st row kind)
      | TMouseKind.rightUp => StepResult.cont (tereChangeDir fs st "..")
      | TMouseKind.scrollUp => StepResult.cont (onArrowKey true st)
      | TMouseKind.scrollDown => StepResult.cont (onArrowKey false st)
      | TMouseKind.otherMouse => StepResult.cont st

/-- Result of running the loop on a finite input script: either the input
was exhausted (the real loop would block on `read_event`) or the loop
terminated with a `Result<(), TereError>`. -/
inductive LoopResult
  | pending (st : UiState)
  | finished (st : UiState) (r : LoopOutcome)
deriving DecidableEq

/-- Embeds `TereTui::main_event_loop` over the finite queue of pending
input events, with fuel for termination. -/
def runLoop (fs : Fs) (env : UiEnv) : Nat → UiState → LoopResult
  | 0, st => LoopResult.pending st
  | Nat.succ n, st =>
      match st.event_queue with
      | [] => LoopResult.pending st
      | e :: rest =>
          match handleEvent fs env { st with event_queue := rest } e with
          | StepResult.cont st1 => runLoop fs env n st1
          | StepResult.exit st1 r => LoopResult.finished st1 r

/-! ## Theorems -/

/-- Argument vector with no optional flag present: only the always-present
defaulted values (`autocd-timeout` default `"300"`, `mouse` default
`"off"`) and a disabled history file. -/
def argsBase : ArgsModel :=
  { folders_only := false
    filter_search := false
    case_sensitive_flag := false
    ignore_case_flag := false
    smart_case_flag := false
    gap_search_flag := false
    gap_search_anywhere_flag := false
    no_gap_search_flag := false
    autocd_timeout_last := "300"
    history_file := some ""
    mouse_last := "off"
    enter_is_cd_and_exit := false
    esc_is_cancel := false }

/-- The settings `parse_cli_args` produces for `argsBase` with no cache
directory. -/
def settingsBase : TereSettings :=
  { folders_only := false
    filter_search := false
    case_sensitive := CaseSensitiveMode.SmartCase
    autocd_timeout := some 300
    history_file := none
    gap_search_mode := GapSearchMode.GapSearchFromStart
    mouse_enabled := false
    enter_is_cd_and_exit := false
    esc_is_cancel := false }

/-- C5: when no case-mode and no gap-mode flag is given on the command
line, the parsed settings carry the `Default` values of the two enums:
`SmartCase` and `GapSearchFromStart`. -/
theorem c5_default_modes (env : SysEnv) (args : ArgsModel)
    (hcs : args.case_sensitive_flag = false)
    (hic : args.ignore_case_flag = false)
    (hsc : args.smart_case_flag = false)
    (hgs : args.gap_search_flag = false)
    (hga : args.gap_search_anywhere_flag = false)
    (hng : args.no_gap_search_flag = false) :
    ∀ s, parse_cli_args env args = Except.ok s →
      s.case_sensitive = CaseSensitiveMode.SmartCase ∧
      s.gap_search_mode = GapSearchMode.GapSearchFromStart := by
  intro s hok
  unfold parse_cli_args at hok
  cases hpa : parseAutocdTimeout args.autocd_timeout_last with
  | error e => rw [hpa] at hok; cases hok
  | ok timeout =>
      rw [hpa] at hok
      cases hok
      simp [hcs, hic, hsc, hgs, hga, hng, TereSettings.default]

/-- Witness for C5 at the concrete flagless argument vector. -/
theorem c5_default_modes_witness :
    settingsBase.case_sensitive = CaseSensitiveMode.SmartCase ∧
    settingsBase.gap_search_mode = GapSearchMode.GapSearchFromStart :=
  c5_default_modes ⟨none⟩ argsBase rfl rfl rfl rfl rfl rfl settingsBase rfl

/-- C6: the `autocd-timeout` argument parses as follows — `"off"` yields a
disabled auto-commit (`None`), a string accepted by `u64::from_str` yields
`Some` of its value, and any other string makes the whole parse fail with
an `InvalidValue` error. -/
theorem c6_autocd_timeout_parse (env : SysEnv) (args : ArgsModel) :
    (args.autocd_timeout_last = "off" →
      ∃ s, parse_cli_args env args = Except.ok s ∧ s.autocd_timeout = none) ∧
    (∀ x, u64FromStr args.autocd_timeout_last = some x →
      ∃ s, parse_cli_args env args = Except.ok s ∧ s.autocd_timeout = some x) ∧
    (args.autocd_timeout_last ≠ "off" →
      u64FromStr args.autocd_timeout_last = none →
      parse_cli_args env args =
        Except.error
          { kind := ClapErrorKind.invalidValue
            msg := "Invalid value for 'autocd-timeout': '"
                     ++ args.autocd_timeout_last ++ "'\n" }) := by
  refine ⟨?_, ?_, ?_⟩
  · intro hoff
    unfold parse_cli_args parseAutocdTimeout
    rw [if_pos hoff]
    exact ⟨_, rfl, rfl⟩
  · intro x hx
    have hoff : ¬ args.autocd_timeout_last = "off" := by
      intro h
      rw [h] at hx
      cases hx
    unfold parse_cli_args parseAutocdTimeout
    rw [if_neg hoff, hx]
    exact ⟨_, rfl, rfl⟩
  · intro hoff hnone
    unfold parse_cli_args parseAutocdTimeout
    rw [if_neg hoff, hnone]

/-- Witness for C6: `"off"` disables, `"300"` gives 300 ms, `"3oo"` fails
the parse with `InvalidValue`. -/
theorem c6_autocd_timeout_parse_witness :
    (∃ s, parse_cli_args ⟨none⟩ { argsBase with autocd_timeout_last := "off" }
            = Except.ok s ∧ s.autocd_timeout = none) ∧
    (∃ s, parse_cli_args ⟨none⟩ argsBase = Except.ok s ∧
            s.autocd_timeout = some 300) ∧
    parse_cli_args ⟨none⟩ { argsBase with autocd_timeout_last := "3oo" } =
      Except.error
        { kind := ClapErrorKind.invalidValue
          msg := "Invalid value for 'autocd-timeout': '3oo'\n" } :=
  ⟨(c6_autocd_timeout_parse ⟨none⟩ _).1 rfl,
   (c6_autocd_timeout_parse ⟨none⟩ argsBase).2.1 300 rfl,
   (c6_autocd_timeout_parse ⟨none⟩ _).2.2 (by simp [argsBase]) rfl⟩

/-- C8: the history file path is disabled (`None`) when the argument is
supplied empty, is the supplied path when non-empty, and otherwise defaults
to `<cache dir>/<package name>/history.json`, or `None` when no per-user
cache directory exists. -/
theorem c8_history_file (env : SysEnv) (args : ArgsModel) :
    (args.history_file = some "" →
      ∀ s, parse_cli_args env args = Except.ok s → s.history_file = none) ∧
    (∀ h, args.history_file = some h → h ≠ "" →
      ∀ s, parse_cli_args env args = Except.ok s → s.history_file = some h) ∧
    (args.history_file = none →
      ∀ s, parse_cli_args env args = Except.ok s →
        s.history_file =
          env.cache_dir.map
            (fun path => path ++ "/" ++ CARGO_PKG_NAME ++ "/history.json")) := by
  refine ⟨?_, ?_, ?_⟩ <;>
    [skip; skip; skip] <;>
    · first
      | (intro hhist s hok
         unfold parse_cli_args at hok
         cases hpa : parseAutocdTimeout args.autocd_timeout_last with
         | error e => rw [hpa] at hok; cases hok
         | ok timeout =>
             rw [hpa] at hok
             cases hok
             simp [hhist])
      | (intro h hhist hne s hok
         unfold parse_cli_args at hok
         cases hpa : parseAutocdTimeout args.autocd_timeout_last with
         | error e => rw [hpa] at hok; cases hok
         | ok timeout =>
             rw [hpa] at hok
             cases hok
             simp [hhist, hne])

/-- Witness for C8 at the three concrete argument vectors. -/
theorem c8_history_file_witness :
    (∀ s, parse_cli_args ⟨some "/home/u/.cache"⟩ argsBase = Except.ok s →
        s.history_file = none) ∧
    (∀ s, parse_cli_args ⟨some "/home/u/.cache"⟩
            { argsBase with history_file := some "/tmp/h.json" } = Except.ok s →
        s.history_file = some "/tmp/h.json") ∧
    (∀ s, parse_cli_args ⟨some "/home/u/.cache"⟩
            { argsBase with history_file := none } = Except.ok s →
        s.history_file = some "/home/u/.cache/tere/history.json") :=
  ⟨(c8_history_file ⟨some "/home/u/.cache"⟩ argsBase).1 rfl,
   fun s hs =>
     (c8_history_file ⟨some "/home/u/.cache"⟩ _).2.1 "/tmp/h.json" rfl
       (by simp) s hs,
   fun s hs => (c8_history_file ⟨some "/home/u/.cache"⟩ _).2.2 rfl s hs⟩

/-- C10: with several mode flags present at once, `parse_cli_args` resolves
them by the fixed precedence of its if/else-if chains (independent of the
flags' positions on the command line, which the `ArgMatches` presence model
does not even record): `case-sensitive` over `ignore-case` over
`smart-case`, and `gap-search` over `gap-search-anywhere` over
`no-gap-search`. -/
theorem c10_flag_precedence (env : SysEnv) (args : ArgsModel) :
    ∀ s, parse_cli_args env args = Except.ok s →
      (args.case_sensitive_flag = true →
        s.case_sensitive = CaseSensitiveMode.CaseSensitive) ∧
      (args.case_sensitive_flag = false → args.ignore_case_flag = true →
        s.case_sensitive = CaseSensitiveMode.IgnoreCase) ∧
      (args.case_sensitive_flag = false → args.ignore_case_flag = false →
        args.smart_case_flag = true →
        s.case_sensitive = CaseSensitiveMode.SmartCase) ∧
      (args.gap_search_flag = true →
        s.gap_search_mode = GapSearchMode.GapSearchFromStart) ∧
      (args.gap_search_flag = false → args.gap_search_anywhere_flag = true →
        s.gap_search_mode = GapSearchMode.GapSearchAnywere) ∧
      (args.gap_search_flag = false → args.gap_search_anywhere_flag = false →
        args.no_gap_search_flag = true →
        s.gap_search_mode = GapSearchMode.NoGapSearch) := by
  intro s hok
  unfold parse_cli_args at hok
  cases hpa : parseAutocdTimeout args.autocd_timeout_last with
  | error e => rw [hpa] at hok; cases hok
  | ok timeout =>
      rw [hpa] at hok
      cases hok
      exact
        ⟨fun h1 => by simp [h1],
         fun h1 h2 => by simp [h1, h2],
         fun h1 h2 h3 => by simp [h1, h2, h3],
         fun h1 => by simp [h1],
         fun h1 h2 => by simp [h1, h2],
         fun h1 h2 h3 => by simp [h1, h2, h3]⟩

/-- Argument vector with all six mode flags present at once. -/
def argsAllModes : ArgsModel :=
  { argsBase with
      case_sensitive_flag := true
      ignore_case_flag := true
      smart_case_flag := true
      gap_search_flag := true
      gap_search_anywhere_flag := true
      no_gap_search_flag := true }

/-- The settings `parse_cli_args` produces for `argsAllModes`. -/
def settingsAllModes : TereSettings :=
  { settingsBase with case_sensitive := CaseSensitiveMode.CaseSensitive }

/-- Witness for C10: all six mode flags present at once resolve to
`CaseSensitive` and `GapSearchFromStart`. -/
theorem c10_flag_precedence_witness :
    settingsAllModes.case_sensitive = CaseSensitiveMode.CaseSensitive ∧
    settingsAllModes.gap_search_mode = GapSearchMode.GapSearchFromStart :=
  ⟨(c10_flag_precedence ⟨none⟩ argsAllModes settingsAllModes (by decide)).1 rfl,
   (c10_flag_precedence ⟨none⟩ argsAllModes settingsAllModes (by decide)).2.2.2.1
     rfl⟩

/-- Adding a character in front of the name preserves subsequence matching,
and a subsequence match of `a :: qs` also matches `qs` (joint induction on
the name). -/
theorem isSubseqBy_weaken_drop (eq : Char → Char → Bool) :
    ∀ ns : List Char,
      (∀ q b, isSubseqBy eq q ns = true → isSubseqBy eq q (b :: ns) = true) ∧
      (∀ a qs, isSubseqBy eq (a :: qs) ns = true → isSubseqBy eq qs ns = true) := by
  intro ns
  induction ns with
  | nil =>
      refine ⟨?_, ?_⟩
      · intro q b h
        cases q with
        | nil => rfl
        | cons a qs => simp [isSubseqBy] at h
      · intro a qs h
        simp [isSubseqBy] at h
  | cons c ns ih =>
      have hB : ∀ a qs, isSubseqBy eq (a :: qs) (c :: ns) = true →
          isSubseqBy eq qs (c :: ns) = true := by
        intro a qs h
        by_cases hac : eq a c = true
        · simp only [isSubseqBy, hac, if_true] at h
          exact ih.1 qs c h
        · simp only [isSubseqBy, hac, if_false] at h
          exact ih.1 qs c (ih.2 a qs h)
      refine ⟨?_, hB⟩
      · intro q b h
        cases q with
        | nil => rfl
        | cons a qs =>
            by_cases hab : eq a b = true
            · simp only [isSubseqBy, hab, if_true]
              exact hB a qs h
            · simp only [isSubseqBy, hab, if_false]
              exact h

/-- A contiguous match at the head of the name is a subsequence match. -/
theorem matchesHereBy_subseq (eq : Char → Char → Bool) :
    ∀ q n, matchesHereBy eq q n = true → isSubseqBy eq q n = true := by
  intro q
  induction q with
  | nil => intro n _; cases n <;> rfl
  | cons a qs ih =>
      intro n h
      cases n with
      | nil => simp [matchesHereBy] at h
      | cons b ns =>
          simp only [matchesHereBy, Bool.and_eq_true] at h
          simp only [isSubseqBy, h.1, if_true]
          exact ih ns h.2

/-- A contiguous-substring match anywhere in the name is a subsequence
match. -/
theorem isContiguousBy_subseq (eq : Char → Char → Bool) :
    ∀ n q, isContiguousBy eq q n = true → isSubseqBy eq q n = true := by
  intro n
  induction n with
  | nil =>
      intro q h
      simp only [isContiguousBy, List.isEmpty_iff] at h
      subst h
      rfl
  | cons b ns ih =>
      intro q h
      simp only [isContiguousBy, Bool.or_eq_true] at h
      rcases h with h | h
      · exact matchesHereBy_subseq eq q (b :: ns) h
      · exact (isSubseqBy_weaken_drop eq ns).1 q b (ih q h)

/-- An anchored gap match is a subsequence match. -/
theorem matchFromStartBy_subseq (eq : Char → Char → Bool) :
    ∀ q n, matchFromStartBy eq q n = true → isSubseqBy eq q n = true := by
  intro q n h
  cases q with
  | nil => cases n <;> rfl
  | cons a qs =>
      cases n with
      | nil => simp [matchFromStartBy] at h
      | cons b ns =>
          simp only [matchFromStartBy, Bool.and_eq_true] at h
          simp only [isSubseqBy, h.1, if_true]
          exact h.2

/-- C7 counterexample: with listing `["xab"]` and query `"ab"` (any fixed
case rule; shown case-sensitive), index 0 matches under `NoGapSearch` —
`"ab"` is a contiguous substring of `"xab"` — but not under
`GapSearchFromStart`, whose first query character must align with the
`'x'`; so the claimed inclusion `NoGapSearch ⊆ GapSearchFromStart` is
false. -/
theorem c7_counterexample :
    0 ∈ matchingIndices GapSearchMode.NoGapSearch true ["xab"] "ab" ∧
    0 ∉ matchingIndices GapSearchMode.GapSearchFromStart true ["xab"] "ab" := by
  decide

/-- C7 (amended): for every listing, query and resolved case rule, the
`NoGapSearch` matches and the `GapSearchFromStart` matches are each a
subset of the `GapSearchAnywere` matches; the remaining inclusion of the
original claim, `NoGapSearch ⊆ GapSearchFromStart`, fails (see the
counterexample). -/
theorem c7_gap_mode_monotonicity (cs : Bool) (listing : List String) (q : String) :
    (∀ i, i ∈ matchingIndices GapSearchMode.NoGapSearch cs listing q →
       i ∈ matchingIndices GapSearchMode.GapSearchAnywere cs listing q) ∧
    (∀ i, i ∈ matchingIndices GapSearchMode.GapSearchFromStart cs listing q →
       i ∈ matchingIndices GapSearchMode.GapSearchAnywere cs listing q) := by
  refine ⟨?_, ?_⟩ <;> intro i hi <;>
    · rw [matchingIndices, List.mem_filter] at hi ⊢
      refine ⟨hi.1, ?_⟩
      have h2 := hi.2
      simp only [nameMatches] at h2 ⊢
      first
        | exact isContiguousBy_subseq _ _ _ h2
        | exact matchFromStartBy_subseq _ _ _ h2

/-- Witness for the amended C7 at listing `["xab"]`, query `"ab"`. -/
theorem c7_gap_mode_monotonicity_witness :
    0 ∈ matchingIndices GapSearchMode.GapSearchAnywere true ["xab"] "ab" :=
  (c7_gap_mode_monotonicity true ["xab"] "ab").1 0 (by decide)

/-- `TereTui::change_dir` always appends exactly the `change_dir` call
marker to the trace, whatever the app-level outcome. -/
theorem tereChangeDir_trace (fs : Fs) (st : UiState) (p : String) :
    (tereChangeDir fs st p).trace = st.trace ++ [Effect.changeDirCall p] := by
  simp only [tereChangeDir, emit]
  split <;> simp [setInfo]

/-- `TereTui::change_dir` does not consume pending input events. -/
theorem tereChangeDir_queue (fs : Fs) (st : UiState) (p : String) :
    (tereChangeDir fs st p).event_queue = st.event_queue := by
  simp only [tereChangeDir, emit]
  split <;> simp [setInfo]

/-- When exactly one match remains after advancing the search, the cursor
sits on that sole match. -/
theorem advanceSearch_single (s : String) (st : TereAppState)
    (h : (advanceSearch s st).search_matches.length = 1) :
    (advanceSearch s st).search_matches = [(advanceSearch s st).cursor_pos] := by
  simp only [advanceSearch] at h ⊢
  generalize recomputeMatches st (st.search_string ++ s) = ms at h ⊢
  cases ms with
  | nil => cases h
  | cons m rest =>
      have hrest : rest = [] := by simpa using h
      subst hrest
      by_cases hcm : st.cursor_pos = m <;> simp [hcm]

/-- C2: when the app-level `change_dir` fails the navigation state
(current path, listing, query, matches, cursor, history) is left unchanged
and the failure surfaces only as the `"error: ..."` status message; on
success the header is updated to the new path and the status message is
cleared. `tereChangeDir` is a total function back into `UiState`, so the
event loop continues in both cases. -/
theorem c2_change_dir_error_handling (fs : Fs) (st : UiState) (path : String) :
    (∀ e, appChangeDir fs st.app path = Except.error e →
      ((tereChangeDir fs st path).app.current_path = st.app.current_path ∧
       (tereChangeDir fs st path).app.listing = st.app.listing ∧
       (tereChangeDir fs st path).app.search_string = st.app.search_string ∧
       (tereChangeDir fs st path).app.search_matches = st.app.search_matches ∧
       (tereChangeDir fs st path).app.cursor_pos = st.app.cursor_pos ∧
       (tereChangeDir fs st path).app.history = st.app.history ∧
       (tereChangeDir fs st path).app.info_msg = "error: " ++ navErrorMsg e)) ∧
    (∀ app1, appChangeDir fs st.app path = Except.ok app1 →
      ((tereChangeDir fs st path).app.header_msg = app1.current_path ∧
       (tereChangeDir fs st path).app.info_msg = "")) := by
  constructor
  · intro e he
    simp only [tereChangeDir, emit]
    rw [he]
    simp [setInfo]
  · intro app1 h1
    simp only [tereChangeDir, emit]
    rw [h1]
    exact ⟨rfl, rfl⟩

/-- Filesystem fixture: a root with a subdirectory `a` and a plain file
`f`. -/
def fsW : Fs :=
  [("/", FsNode.dir ["a", "f"]), ("/a", FsNode.dir ["b"]), ("/f", FsNode.file)]

/-- App-state fixture at the root, cursor on the plain file `f`. -/
def appW : TereAppState :=
  { current_path := "/"
    listing := ["a", "f"]
    search_string := ""
    search_matches := []
    cursor_pos := 1
    header_msg := "/"
    info_msg := ""
    settings := settingsBase
    history := [] }

/-- UI-state fixture wrapping `appW`. -/
def uiW : UiState :=
  { app := appW, event_queue := [], trace := [], win_height := 10 }

/-- The app state `appChangeDir fsW appW "a"` produces. -/
def appAW : TereAppState :=
  { current_path := "/a"
    listing := ["b"]
    search_string := ""
    search_matches := []
    cursor_pos := 0
    header_msg := "/a"
    info_msg := ""
    settings := settingsBase
    history := [("/", 1)] }

/-- Witness for C2: entering the file `f` fails (`Not a directory`) and
leaves the state unchanged; entering `a` succeeds, updates the header and
clears the message. -/
theorem c2_change_dir_error_handling_witness :
    ((tereChangeDir fsW uiW "").app.current_path = uiW.app.current_path ∧
     (tereChangeDir fsW uiW "").app.listing = uiW.app.listing ∧
     (tereChangeDir fsW uiW "").app.search_string = uiW.app.search_string ∧
     (tereChangeDir fsW uiW "").app.search_matches = uiW.app.search_matches ∧
     (tereChangeDir fsW uiW "").app.cursor_pos = uiW.app.cursor_pos ∧
     (tereChangeDir fsW uiW "").app.history = uiW.app.history ∧
     (tereChangeDir fsW uiW "").app.info_msg =
       "error: " ++ navErrorMsg NavError.notADirectory) ∧
    ((tereChangeDir fsW uiW "a").app.header_msg = appAW.current_path ∧
     (tereChangeDir fsW uiW "a").app.info_msg = "") :=
  ⟨(c2_change_dir_error_handling fsW uiW "").1 NavError.notADirectory (by decide),
   (c2_change_dir_error_handling fsW uiW "a").2 appAW (by decide)⟩

/-- C1: after `on_search_char` leaves exactly one match while
`autocd_timeout = Some t`, the controller highlights the row, blocks for
the delay `t`, discards every input event pending in the queue, and then
issues `change_dir("")`, whose target is the entry under the cursor — and
the cursor sits on the sole match; with `autocd_timeout = None` no
`change_dir` call is made and the path, trace and queue are untouched,
whatever the match count. -/
theorem c1_autocd_single_match (fs : Fs) (st : UiState) (c : Char) :
    (∀ t, st.app.settings.autocd_timeout = some t →
      (advanceSearch c.toString st.app).search_matches.length = 1 →
      ((onSearchChar fs st c).event_queue = [] ∧
       (onSearchChar fs st c).trace =
         st.trace ++
           [Effect.highlightExclusive (advanceSearch c.toString st.app).cursor_pos,
            Effect.sleepMs t] ++
           st.event_queue.map (fun _ => Effect.discardedEvent) ++
           [Effect.changeDirCall ""] ∧
       (advanceSearch c.toString st.app).search_matches =
         [(advanceSearch c.toString st.app).cursor_pos])) ∧
    (st.app.settings.autocd_timeout = none →
      ((onSearchChar fs st c).trace = st.trace ∧
       (onSearchChar fs st c).event_queue = st.event_queue ∧
       (onSearchChar fs st c).app.current_path = st.app.current_path)) := by
  constructor
  · intro t ht hn
    have ht1 : (advanceSearch c.toString st.app).settings.autocd_timeout = some t := ht
    refine ⟨?_, ?_, advanceSearch_single _ _ hn⟩
    · simp only [onSearchChar]
      rw [hn, ht1]
      simp only [if_true]
      rw [tereChangeDir_queue]
      simp [drainEvents]
    · simp only [onSearchChar]
      rw [hn, ht1]
      simp only [if_true]
      rw [tereChangeDir_trace]
      simp [drainEvents, emit]
  · intro h0
    have h1 : (advanceSearch c.toString st.app).settings.autocd_timeout = none := h0
    by_cases hn : (advanceSearch c.toString st.app).search_matches.length = 1
    · simp only [onSearchChar]
      rw [hn, h1]
      simp only [if_true]
      refine ⟨?_, ?_, ?_⟩ <;> first | rfl | trivial
    · simp only [onSearchChar]
      rw [if_neg ?hc]
      case hc => exact hn
      by_cases hz : (advanceSearch c.toString st.app).search_matches.length = 0
      · rw [if_pos hz]
        exact ⟨rfl, rfl, rfl⟩
      · rw [if_neg hz]
        exact ⟨rfl, rfl, rfl⟩

/-- UI fixture for the auto-commit scenario: settings with a 300 ms
timeout, listing `["ab", "b"]`, and one pending input event that the drain
must discard. -/
def uiAutocd : UiState :=
  { app :=
      { current_path := "/"
        listing := ["ab", "b"]
        search_string := ""
        search_matches := []
        cursor_pos := 0
        header_msg := "/"
        info_msg := ""
        settings := { settingsBase with autocd_timeout := some 300 }
        history := [] }
    event_queue := [TEvent.key ⟨TKeyCode.char 'x', TMods.noMods⟩]
    trace := []
    win_height := 10 }

/-- The same fixture with the auto-commit timeout disabled. -/
def uiAutocdOff : UiState :=
  { uiAutocd with app :=
      { uiAutocd.app with settings := { settingsBase with autocd_timeout := none } } }

/-- Witness for C1: typing `'a'` leaves only `"ab"` matching; with the
300 ms timeout the queue is drained and `change_dir("")` is issued after
the sleep; with the timeout disabled nothing happens. -/
theorem c1_autocd_single_match_witness :
    ((onSearchChar fsW uiAutocd 'a').event_queue = [] ∧
     (onSearchChar fsW uiAutocd 'a').trace =
       [] ++
         [Effect.highlightExclusive (advanceSearch "a" uiAutocd.app).cursor_pos,
          Effect.sleepMs 300] ++
         uiAutocd.event_queue.map (fun _ => Effect.discardedEvent) ++
         [Effect.changeDirCall ""] ∧
     (advanceSearch "a" uiAutocd.app).search_matches =
       [(advanceSearch "a" uiAutocd.app).cursor_pos]) ∧
    ((onSearchChar fsW uiAutocdOff 'a').trace = [] ∧
     (onSearchChar fsW uiAutocdOff 'a').app.current_path = "/") :=
  ⟨(c1_autocd_single_match fsW uiAutocd 'a').1 300 (by decide) (by decide),
   ⟨((c1_autocd_single_match fsW uiAutocdOff 'a').2 (by decide)).1,
    ((c1_autocd_single_match fsW uiAutocdOff 'a').2 (by decide)).2.2⟩⟩

/-- Every exit of the event-loop step is either `Ok(())` (a `break`) or the
`ExitWithoutCd` error with the fixed message; no other `TereError` variant
is produced by the loop itself. -/
theorem handleEvent_exit_outcomes (fs : Fs) (env : UiEnv) :
    ∀ st e st1 r, handleEvent fs env st e = StepResult.exit st1 r →
      r = LoopOutcome.ok ∨
      r = LoopOutcome.err (TereError.exitWithoutCd exitWithoutCdMsg) := by
  intro st e st1 r h
  cases e with
  | key k =>
      obtain ⟨code, mods⟩ := k
      simp only [handleEvent] at h
      cases code <;> simp only [handleKey] at h
      case char c =>
        simp only [handleCharKey] at h
        cases hcmd : charCmdOf (is_searching st.app) c mods <;>
          rw [hcmd] at h <;> simp only [runCharCmd] at h <;>
          ((cases h) <;> (first | exact Or.inl rfl | exact Or.inr rfl))
      all_goals
        (repeat' split at h) <;>
          ((cases h) <;> (first | exact Or.inl rfl | exact Or.inr rfl))
  | resize w hh =>
      simp only [handleEvent] at h
      cases h
  | mouse row kind =>
      simp only [handleEvent] at h
      split at h <;> cases h

/-- `runLoop` lifts `handleEvent_exit_outcomes` to whole runs. -/
theorem runLoop_outcomes (fs : Fs) (env : UiEnv) :
    ∀ n st st1 r, runLoop fs env n st = LoopResult.finished st1 r →
      r = LoopOutcome.ok ∨
      r = LoopOutcome.err (TereError.exitWithoutCd exitWithoutCdMsg) := by
  intro n
  induction n with
  | zero =>
      intro st st1 r h
      simp [runLoop] at h
  | succ k ih =>
      intro st st1 r h
      rw [runLoop] at h
      cases hq : st.event_queue with
      | nil => rw [hq] at h; simp at h
      | cons e rest =>
          rw [hq] at h
          have h2 : (match handleEvent fs env { st with event_queue := rest } e with
              | StepResult.cont st1 => runLoop fs env k st1
              | StepResult.exit st1 r => LoopResult.finished st1 r) =
              LoopResult.finished st1 r := h
          clear h
          cases hstep : handleEvent fs env { st with event_queue := rest } e with
          | cont s2 =>
              rw [hstep] at h2
              exact ih _ _ _ h2
          | exit s2 r2 =>
              rw [hstep] at h2
              cases h2
              exact handleEvent_exit_outcomes fs env _ _ _ _ hstep

/-- C3: the main event loop terminates in exactly the two distinguishable
outcomes `Ok(())` and `Err(TereError::ExitWithoutCd)` — Ctrl+C always
produces the exit-without-cd variant, Esc while not searching produces it
precisely when `esc_is_cancel` is set and a normal exit otherwise, and
every possible exit of the step function and of whole runs is one of the
two (the exit-without-cd variant is the only error the loop emits, never a
fatal one). -/
theorem c3_loop_exit_outcomes (fs : Fs) (env : UiEnv) :
    (∀ st, handleKey fs env st ⟨TKeyCode.char 'c', TMods.control⟩ =
      StepResult.exit st
        (LoopOutcome.err (TereError.exitWithoutCd exitWithoutCdMsg))) ∧
    (∀ st m, is_searching st.app = false →
      handleKey fs env st ⟨TKeyCode.esc, m⟩ =
        (if st.app.settings.esc_is_cancel then
           StepResult.exit st
             (LoopOutcome.err (TereError.exitWithoutCd exitWithoutCdMsg))
         else StepResult.exit st LoopOutcome.ok)) ∧
    (∀ st e st1 r, handleEvent fs env st e = StepResult.exit st1 r →
      r = LoopOutcome.ok ∨
      r = LoopOutcome.err (TereError.exitWithoutCd exitWithoutCdMsg)) ∧
    (∀ n st st1 r, runLoop fs env n st = LoopResult.finished st1 r →
      r = LoopOutcome.ok ∨
      r = LoopOutcome.err (TereError.exitWithoutCd exitWithoutCdMsg)) := by
  refine ⟨?_, ?_, handleEvent_exit_outcomes fs env, runLoop_outcomes fs env⟩
  · intro st
    have hcmd : ∀ b, charCmdOf b 'c' TMods.control = CharCmd.ctrlCCmd := by
      intro b; cases b <;> decide
    simp only [handleKey, handleCharKey, hcmd, runCharCmd]
  · intro st m hsearch
    by_cases hc : st.app.settings.esc_is_cancel
    · simp [handleKey, hsearch, hc]
    · simp [handleKey, hsearch, hc, onExitOutcome]

/-- Witness for C3: Ctrl+C exits without cd at `uiW`; Esc at `uiW`
(`esc_is_cancel` unset, not searching) is a normal exit; a run consuming a
Ctrl+C event finishes with the exit-without-cd outcome. -/
theorem c3_loop_exit_outcomes_witness :
    handleKey fsW ⟨none⟩ uiW ⟨TKeyCode.char 'c', TMods.control⟩ =
      StepResult.exit uiW
        (LoopOutcome.err (TereError.exitWithoutCd exitWithoutCdMsg)) ∧
    handleKey fsW ⟨none⟩ uiW ⟨TKeyCode.esc, TMods.noMods⟩ =
      (if uiW.app.settings.esc_is_cancel then
         StepResult.exit uiW
           (LoopOutcome.err (TereError.exitWithoutCd exitWithoutCdMsg))
       else StepResult.exit uiW LoopOutcome.ok) ∧
    (LoopOutcome.err (TereError.exitWithoutCd exitWithoutCdMsg) =
       LoopOutcome.ok ∨
     LoopOutcome.err (TereError.exitWithoutCd exitWithoutCdMsg) =
       LoopOutcome.err (TereError.exitWithoutCd exitWithoutCdMsg)) :=
  ⟨(c3_loop_exit_outcomes fsW ⟨none⟩).1 uiW,
   (c3_loop_exit_outcomes fsW ⟨none⟩).2.1 uiW TMods.noMods (by decide),
   (c3_loop_exit_outcomes fsW ⟨none⟩).2.2.2 1
     { uiW with event_queue := [TEvent.key ⟨TKeyCode.char 'c', TMods.control⟩] }
     uiW (LoopOutcome.err (TereError.exitWithoutCd exitWithoutCdMsg))
     (by decide)⟩

/-- C4: while a search is active (query non-empty), Esc runs `clear_search`
— the query becomes empty, the state is back to Browsing, and the matches
are recomputed to none (the recomputation of an empty query) — and the loop
continues; Esc exits the program only when no search is active. -/
theorem c4_esc_clears_search (fs : Fs) (env : UiEnv) (st : UiState) (m : TMods) :
    (is_searching st.app = true →
      (handleKey fs env st ⟨TKeyCode.esc, m⟩ =
         StepResult.cont (setInfo { st with app := clearSearch st.app } "") ∧
       (clearSearch st.app).search_string = "" ∧
       is_searching (clearSearch st.app) = false ∧
       (clearSearch st.app).search_matches = [] ∧
       (clearSearch st.app).search_matches =
         recomputeMatches st.app (clearSearch st.app).search_string)) ∧
    (∀ st1 r, handleKey fs env st ⟨TKeyCode.esc, m⟩ = StepResult.exit st1 r →
      is_searching st.app = false) := by
  constructor
  · intro hs
    refine ⟨?_, rfl, ?_, rfl, ?_⟩
    · simp [handleKey, hs]
    · simp [is_searching, clearSearch]
    · simp [clearSearch, recomputeMatches]
  · intro st1 r h
    cases hs : is_searching st.app
    · rfl
    · simp [handleKey, hs] at h

/-- UI fixture with an active search (query `"a"`). -/
def uiSearching : UiState :=
  { uiW with app := { appW with search_string := "a", search_matches := [0] } }

/-- Witness for C4: at the searching fixture Esc continues with the search
cleared; at the non-searching `uiW` Esc exits, and the theorem certifies
`is_searching = false` there. -/
theorem c4_esc_clears_search_witness :
    (handleKey fsW ⟨none⟩ uiSearching ⟨TKeyCode.esc, TMods.noMods⟩ =
       StepResult.cont
         (setInfo { uiSearching with app := clearSearch uiSearching.app } "") ∧
     (clearSearch uiSearching.app).search_string = "" ∧
     is_searching (clearSearch uiSearching.app) = false ∧
     (clearSearch uiSearching.app).search_matches = [] ∧
     (clearSearch uiSearching.app).search_matches =
       recomputeMatches uiSearching.app
         (clearSearch uiSearching.app).search_string) ∧
    is_searching uiW.app = false :=
  ⟨(c4_esc_clears_search fsW ⟨none⟩ uiSearching TMods.noMods).1 (by decide),
   (c4_esc_clears_search fsW ⟨none⟩ uiW TMods.noMods).2 uiW LoopOutcome.ok
     (by decide)⟩

/-- C9: with `esc_is_cancel` set and `enter_is_cd_and_exit` unset, Enter
exits the loop with the state untouched — no `change_dir` call is made, so
the trace is unchanged; with both flags unset Enter issues `change_dir("")`
and the loop continues. -/
theorem c9_enter_behaviour (fs : Fs) (env : UiEnv) (st : UiState) (m : TMods) :
    (st.app.settings.esc_is_cancel = true →
     st.app.settings.enter_is_cd_and_exit = false →
      (handleKey fs env st ⟨TKeyCode.enter, m⟩ =
         StepResult.exit st LoopOutcome.ok ∧
       st.trace = st.trace)) ∧
    (st.app.settings.esc_is_cancel = false →
     st.app.settings.enter_is_cd_and_exit = false →
      (handleKey fs env st ⟨TKeyCode.enter, m⟩ =
         StepResult.cont (tereChangeDir fs st "") ∧
       (tereChangeDir fs st "").trace =
         st.trace ++ [Effect.changeDirCall ""])) := by
  constructor
  · intro h1 h2
    refine ⟨?_, rfl⟩
    simp [handleKey, h1, h2, onExitOutcome]
  · intro h1 h2
    refine ⟨?_, tereChangeDir_trace fs st ""⟩
    simp [handleKey, h1, h2]

/-- UI fixture with `esc_is_cancel` set and `enter_is_cd_and_exit` unset. -/
def uiEscCancel : UiState :=
  { uiW with app :=
      { appW with settings := { settingsBase with esc_is_cancel := true } } }

/-- Witness for C9 at the two flag combinations. -/
theorem c9_enter_behaviour_witness :
    (handleKey fsW ⟨none⟩ uiEscCancel ⟨TKeyCode.enter, TMods.noMods⟩ =
       StepResult.exit uiEscCancel LoopOutcome.ok ∧
     uiEscCancel.trace = uiEscCancel.trace) ∧
    (handleKey fsW ⟨none⟩ uiW ⟨TKeyCode.enter, TMods.noMods⟩ =
       StepResult.cont (tereChangeDir fsW uiW "") ∧
     (tereChangeDir fsW uiW "").trace =
       uiW.trace ++ [Effect.changeDirCall ""]) :=
  ⟨(c9_enter_behaviour fsW ⟨none⟩ uiEscCancel TMods.noMods).1
     (by decide) (by decide),
   (c9_enter_behaviour fsW ⟨none⟩ uiW TMods.noMods).2
     (by decide) (by decide)⟩

end Tere
